import Mathlib

/-!
A shallow embedding of the checkout-to-fulfillment pipeline of a multi-tenant
e-commerce backend (Express + Mongoose).  Documents are Lean structures,
collections are lists (in insertion order), Mongo `findOne`/`findById` is
`List.find?` (first match), `updateOne` updates the first matching document,
and a Mongoose transaction is a pure function returning `Except`: on
`.error` the caller keeps the pre-call state, which is exactly what
`abortTransaction` achieves.  ObjectIds are `Nat`s issued from a `nextId`
counter, `Date.now()` values are `Nat` parameters, and stock is `Int`
(JS numbers are signed, so "stock never goes negative" is a real property).
-/

namespace Shop

/-- Order status enum of the order schema:
`["pending", "processing", "paid", "shipped", "delivered", "cancelled"]`. -/
inductive OrderStatus where
  | pending
  | processing
  | paid
  | shipped
  | delivered
  | cancelled
deriving DecidableEq, Repr

/-- Payment status enum of the payment schema:
`["initialized", "success", "failed", "refunded"]`. -/
inductive PaymentStatus where
  | initialized
  | success
  | failed
  | refunded
deriving DecidableEq, Repr

/-- `status` rendering used in notes such as "Order marked as shipped". -/
def OrderStatus.toName : OrderStatus → String
  | .pending => "pending"
  | .processing => "processing"
  | .paid => "paid"
  | .shipped => "shipped"
  | .delivered => "delivered"
  | .cancelled => "cancelled"

/-- A cart line (cartLineSchema): product id, variant id, denormalized name,
quantity and unit price snapshot. -/
structure CartLine where
  productId : Nat
  variantId : Nat
  name : String
  quantity : Int
  unitPriceNgn : Int
deriving DecidableEq, Repr

/-- An order line (orderLineSchema), same shape as a cart line. -/
structure OrderLine where
  productId : Nat
  variantId : Nat
  name : String
  quantity : Int
  unitPriceNgn : Int
deriving DecidableEq, Repr

/-- A timeline entry (statusEventSchema); `atMs` is the schema's `at`
timestamp (`at` is a Lean keyword). -/
structure TimelineEntry where
  status : OrderStatus
  note : String
  trackingNumber : Option String
  actor : String
  atMs : Nat
deriving DecidableEq, Repr

/-- Shipping address snapshot stored on the order. -/
structure ShippingAddress where
  address : String
  city : String
  state : String
deriving DecidableEq, Repr

/-- An order document (orderSchema). -/
structure Order where
  id : Nat
  tenantId : Nat
  userId : Nat
  orderRef : String
  status : OrderStatus
  subtotalNgn : Int
  shippingNgn : Int
  totalNgn : Int
  shippingAddress : ShippingAddress
  trackingNumber : Option String
  lines : List OrderLine
  timeline : List TimelineEntry
deriving DecidableEq, Repr

/-- A payment document (paymentSchema); metadata is a string association
list standing in for the free-form `Schema.Types.Mixed` object. -/
structure Payment where
  id : Nat
  tenantId : Nat
  userId : Nat
  orderId : Nat
  providerRef : String
  status : PaymentStatus
  amountNgn : Int
  verifiedAt : Option Nat
  metadata : List (String × String)
deriving DecidableEq, Repr

/-- A product variant with its own stock counter. -/
structure Variant where
  id : Nat
  stock : Int
deriving DecidableEq, Repr

/-- A product document owning a list of variants (catalog schema). -/
structure Product where
  id : Nat
  tenantId : Nat
  variants : List Variant
deriving DecidableEq, Repr

/-- A cart document (cartSchema): keyed by tenant and either a user id or
an anonymous session id. -/
structure Cart where
  id : Nat
  tenantId : Nat
  userId : Option Nat
  sessionId : Option String
  lines : List CartLine
deriving DecidableEq, Repr

/-- A user document, restricted to the contact fields the pipeline reads. -/
structure User where
  id : Nat
  email : Option String
  firstName : Option String
  lastName : Option String
deriving DecidableEq, Repr

/-- A saved customer address (customerAddressSchema), restricted to the
fields the checkout route reads. -/
structure CustomerAddress where
  id : Nat
  tenantId : Nat
  userId : Nat
  addressLine1 : String
  addressLine2 : Option String
  city : String
  state : String
deriving DecidableEq, Repr

/-- Payload of `enqueueOrderStatusNotification`. -/
structure OrderStatusNotification where
  tenantId : Nat
  userId : Nat
  email : String
  customerName : String
  orderId : Nat
  orderRef : String
  status : OrderStatus
  trackingNumber : Option String
  note : String
deriving DecidableEq, Repr

/-- A carrier tracking event document (TrackingEventModel). -/
structure TrackingEvent where
  id : Nat
  tenantId : Nat
  orderId : Nat
  provider : String
  externalTrackingId : String
  status : String
  location : Option String
  message : Option String
  eventAt : Nat
deriving DecidableEq, Repr

/-- The document store: one list per collection, in insertion order, plus a
counter from which fresh ObjectIds are issued. -/
structure DB where
  nextId : Nat
  payments : List Payment
  orders : List Order
  products : List Product
  carts : List Cart
  users : List User
  addresses : List CustomerAddress
  trackingEvents : List TrackingEvent
  notifications : List OrderStatusNotification
deriving DecidableEq, Repr

/-! ## Cart Aggregator (`src/apps/api/src/utils/cart.ts`) -/

/-- Totals returned by `calculateCartTotals`. -/
structure CartTotals where
  subtotalNgn : Int
  shippingNgn : Int
  totalNgn : Int
deriving DecidableEq, Repr

/-- `calculateCartTotals(cart)`: subtotal is the sum of
`quantity * unitPriceNgn` over the lines, shipping is a flat 2500 when the
subtotal is positive and 0 otherwise, total is their sum. -/
def calculateCartTotals (lines : List CartLine) : CartTotals :=
  let subtotalNgn := lines.foldl (fun acc item => acc + item.quantity * item.unitPriceNgn) 0
  let shippingNgn : Int := if subtotalNgn > 0 then 2500 else 0
  let totalNgn := subtotalNgn + shippingNgn
  { subtotalNgn := subtotalNgn, shippingNgn := shippingNgn, totalNgn := totalNgn }

/-! ## Order status transition table (`canTransition` in the admin module) -/

/-- The `allowedTransition` record. -/
def allowedTransition : OrderStatus → List OrderStatus
  | .pending => [.processing, .shipped, .cancelled]
  | .processing => [.shipped, .cancelled]
  | .paid => [.processing, .shipped, .cancelled]
  | .shipped => [.delivered]
  | .delivered => []
  | .cancelled => []

/-- `canTransition(from, to)`: equal statuses are always allowed, otherwise
the target must be listed in the `allowedTransition` table. -/
def canTransition (f t : OrderStatus) : Bool :=
  if f = t then true else (allowedTransition f).contains t

/-! ## Store lookups and single-document updates -/

/-- `PaymentModel.findOne({ providerRef: reference })` — note: no tenant
filter; the first payment (in insertion order) with that reference wins. -/
def findPayment (db : DB) (reference : String) : Option Payment :=
  db.payments.find? (fun p => p.providerRef == reference)

/-- `OrderModel.findById(orderId)`. -/
def findOrderById (db : DB) (orderId : Nat) : Option Order :=
  db.orders.find? (fun o => o.id == orderId)

/-- `UserModel.findById(userId)`. -/
def findUserById (db : DB) (userId : Nat) : Option User :=
  db.users.find? (fun u => u.id == userId)

/-- `doc.save()` for a payment: replace the first document carrying the
same `_id`. -/
def savePayment : List Payment → Payment → List Payment
  | [], _ => []
  | p :: ps, q => if p.id == q.id then q :: ps else p :: savePayment ps q

/-- `doc.save()` for an order: replace the first document carrying the
same `_id`. -/
def saveOrder : List Order → Order → List Order
  | [], _ => []
  | o :: os, q => if o.id == q.id then q :: os else o :: saveOrder os q

/-- The JS object spread `{...(old ?? \x7b\x7d), ...patch}`: keys of `patch`
override keys of `old`, keys of `old` absent from `patch` survive. -/
def mergeMetadata (old patch : List (String × String)) : List (String × String) :=
  old.filter (fun kv => ¬ patch.any (fun kv2 => kv2.1 == kv.1)) ++ patch

/-! ## Conditional stock decrement

`ProductModel.updateOne({_id, tenantId, "variants._id": v, "variants.stock":
{$gte: q}}, {$inc: {"variants.$.stock": -q}}, {session})`.  The filter has
no `$elemMatch`, so its two array conditions are independent: the document
matches when SOME variant carries the id and SOME — possibly different —
variant has `stock ≥ q`.  The positional `$` then resolves to the first
array element matching the query; for a conjunction of conditions on one
array MongoDB records the position from the last array condition evaluated
(the classic `comments.by`/`comments.votes` behavior), so the update
decrements the first variant with `stock ≥ q`, which need not be the
variant named in the filter.  `none` models `modifiedCount !== 1`
(no document matched). -/

/-- `"variants._id": v` without `$elemMatch`: some variant carries the id. -/
def hasVariantId (vs : List Variant) (variantId : Nat) : Bool :=
  vs.any (fun v => v.id == variantId)

/-- `"variants.stock": {$gte: q}` without `$elemMatch`: some variant has
stock at least `qty`. -/
def hasVariantStock (vs : List Variant) (qty : Int) : Bool :=
  vs.any (fun v => decide (qty ≤ v.stock))

/-- The positional `$` update: decrement the first variant satisfying the
last array condition of the filter (`stock ≥ qty`). -/
def decrementFirstWithStock : List Variant → Int → List Variant
  | [], _ => []
  | v :: vs, qty =>
    if qty ≤ v.stock then { v with stock := v.stock - qty } :: vs
    else v :: decrementFirstWithStock vs qty

/-- The conditional `updateOne` over the products collection: the first
product matching `_id`, `tenantId` and the two decoupled array conditions
receives the positional decrement; `none` when no document matched. -/
def condDecrementStock : List Product → Nat → Nat → Nat → Int → Option (List Product)
  | [], _, _, _, _ => none
  | p :: ps, productId, tenantId, variantId, qty =>
    if p.id == productId && p.tenantId == tenantId &&
        hasVariantId p.variants variantId && hasVariantStock p.variants qty then
      some ({ p with variants := decrementFirstWithStock p.variants qty } :: ps)
    else
      (condDecrementStock ps productId tenantId variantId qty).map (fun ps2 => p :: ps2)

/-- Errors thrown by `finalizeSuccessfulPayment` (plain `Error` objects in
the source, distinguished here by constructor). -/
inductive FinalizeErr where
  | paymentNotFound
  | orderNotFound
  | stockConflict (productId : Nat)
deriving DecidableEq, Repr

/-- The `.message` of each thrown `Error`. -/
def FinalizeErr.message : FinalizeErr → String
  | .paymentNotFound => "Payment reference not found"
  | .orderNotFound => "Order not found for payment"
  | .stockConflict productId => "Failed to decrement stock for product " ++ toString productId

/-- The `for (const line of order.lines)` loop: decrement each line in turn,
failing the whole batch on the first line whose conditional update matches
nothing. -/
def applyLineDecrements (tenantId : Nat) : List Product → List OrderLine → Except FinalizeErr (List Product)
  | products, [] => .ok products
  | products, line :: rest =>
    match condDecrementStock products line.productId tenantId line.variantId line.quantity with
    | some products2 => applyLineDecrements tenantId products2 rest
    | none => .error (.stockConflict line.productId)

/-- `CartModel.updateOne({tenantId, userId}, {$set: {lines: []}})`: empty the
line list of the first cart matching the key; no match is not an error. -/
def clearCartLines : List Cart → Nat → Nat → List Cart
  | [], _, _ => []
  | c :: cs, tenantId, userId =>
    if c.tenantId == tenantId && c.userId == some userId then
      { c with lines := [] } :: cs
    else
      c :: clearCartLines cs tenantId userId

/-- The order-status jobs produced after the finalize commit: one job when
the customer contact lookup yields an email, none otherwise. -/
def paidNotificationJobs (db : DB) (order : Order) : List OrderStatusNotification :=
  match findUserById db order.userId with
  | none => []
  | some customer =>
    match customer.email with
    | none => []
    | some email =>
      [{ tenantId := order.tenantId
         userId := order.userId
         email := email
         customerName := ((customer.firstName.getD "") ++ " " ++ (customer.lastName.getD "")).trim
         orderId := order.id
         orderRef := order.orderRef
         status := .paid
         trackingNumber := none
         note := "Payment confirmed." }]

/-- Post-commit best-effort notification: look up the customer contact and
enqueue an order-status job when an email is on file. -/
def enqueuePaidNotification (db : DB) (order : Order) : DB :=
  { db with notifications := db.notifications ++ paidNotificationJobs db order }

/-- Result record of `finalizeSuccessfulPayment`. -/
structure FinalizeOk where
  payment : Payment
  order : Order
  idempotent : Bool
deriving DecidableEq, Repr

/-- `finalizeSuccessfulPayment(reference, metadata)`:
look up the payment by provider reference (no tenant filter) and its order;
return `idempotent := true` with no mutation when the payment is already
`success`; otherwise, inside one transaction, mark the payment `success`
(merging metadata), transition the order to `paid` appending one timeline
entry, conditionally decrement stock per line, and clear the customer's
cart; after commit, enqueue the notification.  An `.error` result models the
aborted transaction: the caller keeps the pre-call `db`. -/
def finalizeSuccessfulPayment (db : DB) (reference : String)
    (metadata : List (String × String)) (now : Nat) :
    Except FinalizeErr (DB × FinalizeOk) :=
  match findPayment db reference with
  | none => .error .paymentNotFound
  | some payment =>
    match findOrderById db payment.orderId with
    | none => .error .orderNotFound
    | some order =>
      if payment.status = .success then
        .ok (db, { payment := payment, order := order, idempotent := true })
      else
        let payment2 := { payment with
          status := .success
          verifiedAt := some now
          metadata := mergeMetadata payment.metadata metadata }
        let order2 := { order with
          status := .paid
          timeline := order.timeline ++
            [{ status := .paid, note := "Payment confirmed.", trackingNumber := none,
               actor := "system", atMs := now }] }
        match applyLineDecrements order.tenantId db.products order.lines with
        | .error e => .error e
        | .ok products2 =>
          let committed : DB := { db with
            payments := savePayment db.payments payment2
            orders := saveOrder db.orders order2
            products := products2
            carts := clearCartLines db.carts order.tenantId order.userId }
          .ok (enqueuePaidNotification committed order2,
               { payment := payment2, order := order2, idempotent := false })

/-! ## Webhook endpoint (`POST /paystack/webhook`) -/

/-- Whether the pattern is a leading segment of the text. -/
def leadEq : List Char → List Char → Bool
  | [], _ => true
  | _ :: _, [] => false
  | p :: ps, c :: cs => p == c && leadEq ps cs

/-- Whether the pattern occurs contiguously inside the text. -/
def charSeqContains (pat : List Char) : List Char → Bool
  | [] => pat.isEmpty
  | c :: cs => leadEq pat (c :: cs) || charSeqContains pat cs

/-- JS `message.includes(pat)`. -/
def strIncludes (message pat : String) : Bool :=
  charSeqContains pat.toList message.toList

/-- `verifyPaystackWebhookSignature(rawBody, signature)`: accept everything
when no webhook secret is configured; otherwise compare the hex
HMAC-SHA512 of the raw body bytes against the signature header (`hash ===
signature` is false when the header is absent).  The HMAC itself is an
opaque keyed digest passed in as `hmacSha512Hex`. -/
def verifyPaystackWebhookSignature (hmacSha512Hex : String → List Nat → String)
    (secret : Option String) (rawBody : List Nat) (signature : Option String) : Bool :=
  match secret with
  | none => true
  | some s =>
    match signature with
    | none => false
    | some sig => hmacSha512Hex s rawBody == sig

/-- A webhook request: the raw body bytes together with the fields the
handler reads out of the parsed JSON payload. -/
structure WebhookReq where
  rawBody : List Nat
  signature : Option String
  event : String
  reference : Option String
  gatewayResponse : Option String
  paidAt : Option String
deriving DecidableEq, Repr

/-- An HTTP response, reduced to the status code and the `idempotent` flag
the webhook echoes back. -/
structure HttpResponse where
  status : Nat
  idempotent : Option Bool
deriving DecidableEq, Repr

/-- The metadata object the webhook passes to finalize. -/
def webhookMetadata (req : WebhookReq) : List (String × String) :=
  [("source", "webhook"),
   ("gatewayResponse", req.gatewayResponse.getD ""),
   ("paidAt", req.paidAt.getD "")]

/-- `POST /paystack/webhook`: 401 on bad signature; 200 acknowledge for
non-`charge.success` events; 400 when the reference is missing; otherwise
finalize — 200 on success, 404 when the error message includes
"not found", 500 otherwise. -/
def paystackWebhookHandler (hmacSha512Hex : String → List Nat → String)
    (secret : Option String) (db : DB) (req : WebhookReq) (now : Nat) :
    HttpResponse × DB :=
  if ¬ verifyPaystackWebhookSignature hmacSha512Hex secret req.rawBody req.signature then
    ({ status := 401, idempotent := none }, db)
  else if req.event ≠ "charge.success" then
    ({ status := 200, idempotent := none }, db)
  else
    match req.reference with
    | none => ({ status := 400, idempotent := none }, db)
    | some reference =>
      match finalizeSuccessfulPayment db reference (webhookMetadata req) now with
      | .ok (db2, result) =>
        ({ status := 200, idempotent := some result.idempotent }, db2)
      | .error e =>
        if strIncludes e.message "not found" then
          ({ status := 404, idempotent := none }, db)
        else
          ({ status := 500, idempotent := none }, db)

/-! ## Admin order-status update (`PATCH /orders/:id/status`) -/

/-- Body of the admin status update, already validated by
`adminOrderStatusUpdateSchema`. -/
structure AdminStatusReq where
  status : OrderStatus
  trackingNumber : Option String
  note : Option String
deriving DecidableEq, Repr

/-- `OrderModel.findOne({ _id, tenantId })`. -/
def findOrderTenant (db : DB) (orderId tenantId : Nat) : Option Order :=
  db.orders.find? (fun o => o.id == orderId && o.tenantId == tenantId)

/-- The admin-path order-status jobs: one job when the customer contact
lookup yields an email, none otherwise. -/
def statusNotificationJobs (db : DB) (order : Order) (note : String) :
    List OrderStatusNotification :=
  match findUserById db order.userId with
  | none => []
  | some customer =>
    match customer.email with
    | none => []
    | some email =>
      [{ tenantId := order.tenantId
         userId := order.userId
         email := email
         customerName := ((customer.firstName.getD "") ++ " " ++ (customer.lastName.getD "")).trim
         orderId := order.id
         orderRef := order.orderRef
         status := order.status
         trackingNumber := order.trackingNumber
         note := note }]

/-- Enqueue the admin-path order-status notification when the customer has
an email on file (only called for paid/shipped/delivered). -/
def enqueueStatusNotification (db : DB) (order : Order) (note : String) : DB :=
  { db with notifications := db.notifications ++ statusNotificationJobs db order note }

/-- `PATCH /orders/:id/status`: 404 when the order is missing, 409 when
`canTransition` rejects the pair, 400 when shipping without any tracking
number, otherwise apply the status, record the tracking number, append one
timeline entry, and notify on paid/shipped/delivered. -/
def updateOrderStatus (db : DB) (tenantId orderId : Nat) (req : AdminStatusReq)
    (actorRole : String) (now : Nat) : HttpResponse × DB :=
  match findOrderTenant db orderId tenantId with
  | none => ({ status := 404, idempotent := none }, db)
  | some order =>
    if ¬ canTransition order.status req.status then
      ({ status := 409, idempotent := none }, db)
    else if req.status = .shipped ∧ req.trackingNumber = none ∧ order.trackingNumber = none then
      ({ status := 400, idempotent := none }, db)
    else
      let newTracking := match req.trackingNumber with
        | some t => some t
        | none => order.trackingNumber
      let note := req.note.getD ("Order marked as " ++ req.status.toName)
      let order2 := { order with
        status := req.status
        trackingNumber := newTracking
        timeline := order.timeline ++
          [{ status := req.status, note := note, trackingNumber := newTracking,
             actor := actorRole, atMs := now }] }
      let db2 := { db with orders := saveOrder db.orders order2 }
      let db3 :=
        if req.status = .paid ∨ req.status = .shipped ∨ req.status = .delivered then
          enqueueStatusNotification db2 order2 note
        else db2
      ({ status := 200, idempotent := none }, db3)

/-! ## Carrier tracking events (`POST /orders/:id/tracking-events`) -/

/-- Body of the tracking-event route, already validated by
`orderTrackingEventSchema` (status is one of label_created, picked_up,
in_transit, out_for_delivery, delivered, exception). -/
structure TrackingEventReq where
  provider : String
  externalTrackingId : String
  status : String
  location : Option String
  message : Option String
  eventAt : Option Nat
deriving DecidableEq, Repr

/-- `POST /orders/:id/tracking-events`: 404 when the order is missing;
otherwise persist the event, and for delivered/out_for_delivery/in_transit
statuses with a non-empty tracking id, stamp the tracking number on the
order, promote its status (delivered, or processing/paid → shipped) and
append one timeline entry.  The schema requires the tracking id to be at
least two characters, so the source's truthiness test on it is modeled by
`externalTrackingId ≠ ""`. -/
def processTrackingEvent (db : DB) (tenantId orderId : Nat) (req : TrackingEventReq)
    (actorRole : String) (now : Nat) : HttpResponse × DB :=
  match findOrderTenant db orderId tenantId with
  | none => ({ status := 404, idempotent := none }, db)
  | some order =>
    let event : TrackingEvent := {
      id := db.nextId
      tenantId := tenantId
      orderId := orderId
      provider := req.provider
      externalTrackingId := req.externalTrackingId
      status := req.status
      location := req.location
      message := req.message
      eventAt := req.eventAt.getD now }
    let db2 := { db with
      nextId := db.nextId + 1
      trackingEvents := db.trackingEvents ++ [event] }
    if (req.status = "delivered" ∨ req.status = "out_for_delivery" ∨ req.status = "in_transit")
        ∧ req.externalTrackingId ≠ "" then
      let status2 :=
        if req.status = "delivered" then OrderStatus.delivered
        else if order.status = .processing ∨ order.status = .paid then OrderStatus.shipped
        else order.status
      let order2 := { order with
        status := status2
        trackingNumber := some req.externalTrackingId
        timeline := order.timeline ++
          [{ status := status2,
             note := req.message.getD ("Carrier update: " ++ req.status),
             trackingNumber := some req.externalTrackingId,
             actor := actorRole, atMs := now }] }
      ({ status := 201, idempotent := none },
       { db2 with orders := saveOrder db2.orders order2 })
    else
      ({ status := 201, idempotent := none }, db2)

/-! ## Checkout initiation (`POST /checkout/initialize`) -/

/-- Body of the checkout route, already validated by `checkoutInitSchema`. -/
structure CheckoutReq where
  email : String
  addressId : Option Nat
  shippingAddress : Option String
  city : Option String
  state : Option String
deriving DecidableEq, Repr

/-- Payload returned by a successful `initializePaystackTransaction`. -/
structure PaystackInitData where
  authorizationUrl : String
  accessCode : String
deriving DecidableEq, Repr

/-- A cart line copied verbatim into an order line. -/
def cartLineToOrderLine (line : CartLine) : OrderLine :=
  { productId := line.productId, variantId := line.variantId, name := line.name,
    quantity := line.quantity, unitPriceNgn := line.unitPriceNgn }

/-- `CartModel.findOne({ tenantId, userId })`. -/
def findCart (db : DB) (tenantId userId : Nat) : Option Cart :=
  db.carts.find? (fun c => c.tenantId == tenantId && c.userId == some userId)

/-- `CustomerAddressModel.findOne({ _id, tenantId, userId })`. -/
def findAddress (db : DB) (addressId tenantId userId : Nat) : Option CustomerAddress :=
  db.addresses.find? (fun a => a.id == addressId && a.tenantId == tenantId && a.userId == userId)

/-- The address snapshot built from a saved customer address. -/
def savedAddressSnapshot (a : CustomerAddress) : ShippingAddress :=
  { address := a.addressLine1 ++ (match a.addressLine2 with
      | some l2 => ", " ++ l2
      | none => "")
    city := a.city
    state := a.state }

/-- The address-resolution block of the checkout route: a saved address
looked up by id (404 when absent or foreign), else the three inline fields
(400 when incomplete). -/
def resolveShippingAddress (db : DB) (tenantId userId : Nat) (req : CheckoutReq) :
    Except Nat ShippingAddress :=
  match req.addressId with
  | some addressId =>
    match findAddress db addressId tenantId userId with
    | none => .error 404
    | some a => .ok (savedAddressSnapshot a)
  | none =>
    match req.shippingAddress, req.city, req.state with
    | some line, some city, some st => .ok { address := line, city := city, state := st }
    | _, _, _ => .error 400

/-- `POST /checkout/initialize`: reject an empty cart (409), resolve the
shipping address (404 / 400), call the gateway with the computed total —
`gatewayResult` is the outcome of that external call; a gateway error
propagates (500) before anything is written — then atomically create the
Order (`pending`, one timeline entry) and the Payment (`initialized`).
`commitOk = false` models the transaction failing to commit; a duplicate
per-tenant orderRef or providerRef violates a unique index inside the
transaction and aborts it the same way.  References are
`SWS-${Date.now()}` and `PAY-${Date.now()}-${random suffix}` with
`Date.now()` and the random suffix passed in as `now` and `rand`. -/
def initializeCheckout (db : DB) (tenantId userId : Nat) (req : CheckoutReq)
    (gatewayResult : Except Unit PaystackInitData) (now : Nat) (rand : String)
    (commitOk : Bool) : HttpResponse × DB :=
  match findCart db tenantId userId with
  | none => ({ status := 409, idempotent := none }, db)
  | some cart =>
    if cart.lines.isEmpty then
      ({ status := 409, idempotent := none }, db)
    else
      let totals := calculateCartTotals cart.lines
      let orderRef := "SWS-" ++ toString now
      let paymentRef := "PAY-" ++ toString now ++ "-" ++ rand
      match resolveShippingAddress db tenantId userId req with
      | .error code => ({ status := code, idempotent := none }, db)
      | .ok shippingAddress =>
        match gatewayResult with
        | .error _ => ({ status := 500, idempotent := none }, db)
        | .ok paystack =>
          if db.orders.any (fun o => o.tenantId == tenantId && o.orderRef == orderRef) then
            ({ status := 500, idempotent := none }, db)
          else if db.payments.any (fun p => p.tenantId == tenantId && p.providerRef == paymentRef) then
            ({ status := 500, idempotent := none }, db)
          else if ¬ commitOk then
            ({ status := 500, idempotent := none }, db)
          else
            let order : Order := {
              id := db.nextId
              tenantId := tenantId
              userId := userId
              orderRef := orderRef
              status := .pending
              subtotalNgn := totals.subtotalNgn
              shippingNgn := totals.shippingNgn
              totalNgn := totals.totalNgn
              shippingAddress := shippingAddress
              trackingNumber := none
              lines := cart.lines.map cartLineToOrderLine
              timeline := [{ status := .pending,
                             note := "Order created and awaiting payment confirmation.",
                             trackingNumber := none, actor := "system", atMs := now }] }
            let payment : Payment := {
              id := db.nextId + 1
              tenantId := tenantId
              userId := userId
              orderId := order.id
              providerRef := paymentRef
              status := .initialized
              amountNgn := totals.totalNgn
              verifiedAt := none
              metadata := [("accessCode", paystack.accessCode),
                           ("authorizationUrl", paystack.authorizationUrl)] }
            ({ status := 201, idempotent := none },
             { db with
               nextId := db.nextId + 2
               orders := db.orders ++ [order]
               payments := db.payments ++ [payment] })

/-! ## A concrete store state, used to exercise the operations -/

/-- A cart line: two units at 15000 minor units each. -/
def demoCartLine : CartLine :=
  { productId := 100, variantId := 1000, name := "Tee", quantity := 2, unitPriceNgn := 15000 }

/-- The matching order line snapshot. -/
def demoOrderLine : OrderLine :=
  { productId := 100, variantId := 1000, name := "Tee", quantity := 2, unitPriceNgn := 15000 }

/-- A shipping address snapshot. -/
def demoAddress : ShippingAddress :=
  { address := "1 Marina Road", city := "Lagos", state := "Lagos" }

/-- The timeline entry written at checkout initiation. -/
def demoTimeline0 : TimelineEntry :=
  { status := .pending, note := "Order created and awaiting payment confirmation.",
    trackingNumber := none, actor := "system", atMs := 1 }

/-- A pending order for tenant 1, customer 10. -/
def demoOrder : Order :=
  { id := 300, tenantId := 1, userId := 10, orderRef := "SWS-1", status := .pending,
    subtotalNgn := 30000, shippingNgn := 2500, totalNgn := 32500,
    shippingAddress := demoAddress, trackingNumber := none,
    lines := [demoOrderLine], timeline := [demoTimeline0] }

/-- The initialized payment for `demoOrder`. -/
def demoPayment : Payment :=
  { id := 301, tenantId := 1, userId := 10, orderId := 300, providerRef := "PAY-1-AAA",
    status := .initialized, amountNgn := 32500, verifiedAt := none, metadata := [] }

/-- A product of tenant 1 with one variant holding five units of stock. -/
def demoProduct : Product :=
  { id := 100, tenantId := 1, variants := [{ id := 1000, stock := 5 }] }

/-- The customer's cart. -/
def demoCart : Cart :=
  { id := 200, tenantId := 1, userId := some 10, sessionId := none, lines := [demoCartLine] }

/-- The customer contact record. -/
def demoUser : User :=
  { id := 10, email := some "ada@example.com", firstName := some "Ada", lastName := some "Obi" }

/-- The store state just after checkout initiation for `demoOrder`. -/
def demoDB : DB :=
  { nextId := 400, payments := [demoPayment], orders := [demoOrder],
    products := [demoProduct], carts := [demoCart], users := [demoUser],
    addresses := [], trackingEvents := [], notifications := [] }

/-- `demoPayment` already finalized. -/
def demoPaidPayment : Payment := { demoPayment with status := .success }

/-- The store with the payment already marked `success`. -/
def demoPaidDB : DB := { demoDB with payments := [demoPaidPayment] }

/-- The product with only one unit in stock — not enough for the order. -/
def demoShortProduct : Product :=
  { id := 100, tenantId := 1, variants := [{ id := 1000, stock := 1 }] }

/-- The store where the order's line exceeds the available stock. -/
def demoShortDB : DB := { demoDB with products := [demoShortProduct] }

/-- The product where the ordered variant (id 1000) is out of stock while
a sibling variant (id 2000) holds plenty. -/
def demoMixedProduct : Product :=
  { id := 100, tenantId := 1,
    variants := [{ id := 1000, stock := 0 }, { id := 2000, stock := 10 }] }

/-- The store where the order's variant is out of stock but its sibling
satisfies the filter's stock condition. -/
def demoMixedDB : DB := { demoDB with products := [demoMixedProduct] }

/-- A second tenant's cart. -/
def demoCart2 : Cart :=
  { id := 201, tenantId := 2, userId := some 20, sessionId := none, lines := [demoCartLine] }

/-- A second tenant's customer. -/
def demoUser2 : User :=
  { id := 20, email := some "bola@example.com", firstName := some "Bola", lastName := some "Ade" }

/-- A store holding two tenants' carts and no orders or payments yet. -/
def demoTwoTenantDB : DB :=
  { nextId := 500, payments := [], orders := [], products := [demoProduct],
    carts := [demoCart, demoCart2], users := [demoUser, demoUser2],
    addresses := [], trackingEvents := [], notifications := [] }

/-- A checkout request carrying an inline shipping address. -/
def demoCheckoutReq : CheckoutReq :=
  { email := "ada@example.com", addressId := none,
    shippingAddress := some "1 Marina Road", city := some "Lagos", state := some "Lagos" }

/-- A successful gateway initialization. -/
def demoGatewayOk : Except Unit PaystackInitData :=
  .ok { authorizationUrl := "https://paystack.example/auth", accessCode := "AC1" }

/-- Tenant 1 checks out at `Date.now() = 777` with random suffix AAAAAA. -/
def demoCheckoutDB1 : DB :=
  (initializeCheckout demoTwoTenantDB 1 10 demoCheckoutReq demoGatewayOk 777 "AAAAAA" true).2

/-- Tenant 2 checks out at the same millisecond with the same random
suffix, producing the same provider reference in a different tenant. -/
def demoCheckoutDB2 : DB :=
  (initializeCheckout demoCheckoutDB1 2 20 demoCheckoutReq demoGatewayOk 777 "AAAAAA" true).2

/-- A keyed digest standing in for HMAC-SHA512 in concrete runs. -/
def demoHmac : String → List Nat → String := fun _ _ => "deadbeef"

/-- A correctly signed `charge.success` webhook for `demoPayment`. -/
def demoWebhookReq : WebhookReq :=
  { rawBody := [123, 125], signature := some "deadbeef", event := "charge.success",
    reference := some "PAY-1-AAA", gatewayResponse := some "Successful",
    paidAt := some "2026-02-01T10:00:00Z" }

/-! ## Verified properties -/

/-- Folding `acc + quantity * unitPriceNgn` equals the initial value plus
the sum of the per-line amounts. -/
lemma foldl_line_amount_sum (lines : List CartLine) (init : Int) :
    lines.foldl (fun acc item => acc + item.quantity * item.unitPriceNgn) init =
      init + (lines.map (fun item => item.quantity * item.unitPriceNgn)).sum := by
  induction lines generalizing init with
  | nil => simp
  | cons l ls ih => simp [ih, add_assoc]

/-- C5: `calculateCartTotals` is a deterministic pure function of the line
list: the subtotal is the sum over the lines of quantity times unit price,
shipping is 0 when the subtotal is 0 and the fixed positive flat fee 2500
when the subtotal is positive, and the total is subtotal plus shipping. -/
theorem calculateCartTotals_spec (lines : List CartLine) :
    (calculateCartTotals lines).subtotalNgn =
      (lines.map (fun item => item.quantity * item.unitPriceNgn)).sum ∧
    (calculateCartTotals lines).totalNgn =
      (calculateCartTotals lines).subtotalNgn + (calculateCartTotals lines).shippingNgn ∧
    ((calculateCartTotals lines).subtotalNgn = 0 →
      (calculateCartTotals lines).shippingNgn = 0) ∧
    (0 < (calculateCartTotals lines).subtotalNgn →
      (calculateCartTotals lines).shippingNgn = 2500) := by
  refine ⟨by simp [calculateCartTotals, foldl_line_amount_sum], rfl, ?_, ?_⟩
  · intro h
    simp only [calculateCartTotals] at h ⊢
    simp [h]
  · intro h
    simp only [calculateCartTotals] at h ⊢
    simp [h]

/-- C5 witness: on the demo cart line (2 × 15000) the subtotal is positive
and the flat shipping fee applies. -/
theorem calculateCartTotals_spec_witness :
    0 < (calculateCartTotals [demoCartLine]).subtotalNgn ∧
    (calculateCartTotals [demoCartLine]).shippingNgn = 2500 :=
  ⟨by decide, (calculateCartTotals_spec [demoCartLine]).2.2.2 (by decide)⟩

/-- `canTransition` agrees with membership in the transition table. -/
lemma canTransition_iff (f t : OrderStatus) :
    canTransition f t = true ↔ f = t ∨ t ∈ allowedTransition f := by
  cases f <;> cases t <;> decide

/-- C3: for every pair of distinct statuses absent from the allowed
transition table, the admin status route answers 409 and leaves the store
(hence the order's status and timeline) untouched; and every same-state
pair passes the transition guard. -/
theorem updateOrderStatus_invalidTransition (db : DB) (tenantId orderId : Nat)
    (req : AdminStatusReq) (actorRole : String) (now : Nat) (order : Order)
    (hfind : findOrderTenant db orderId tenantId = some order)
    (hne : order.status ≠ req.status)
    (hnot : req.status ∉ allowedTransition order.status) :
    updateOrderStatus db tenantId orderId req actorRole now =
      ({ status := 409, idempotent := none }, db) ∧
    ∀ s : OrderStatus, canTransition s s = true := by
  constructor
  · have hcan : canTransition order.status req.status = false := by
      rw [Bool.eq_false_iff]
      intro hc
      rcases (canTransition_iff _ _).mp hc with h | h
      · exact hne h
      · exact hnot h
    simp [updateOrderStatus, hfind, hcan]
  · intro s
    cases s <;> rfl

/-- C3 witness: pending → delivered is rejected with 409 on the demo store,
and paid → paid passes the guard. -/
theorem updateOrderStatus_invalidTransition_witness :
    updateOrderStatus demoDB 1 300
        { status := .delivered, trackingNumber := none, note := none } "admin" 5 =
      ({ status := 409, idempotent := none }, demoDB) ∧
    canTransition .paid .paid = true := by
  have h := updateOrderStatus_invalidTransition demoDB 1 300
    { status := .delivered, trackingNumber := none, note := none } "admin" 5 demoOrder
    (by rfl) (by decide) (by decide)
  exact ⟨h.1, h.2 .paid⟩

/-- C4: the signature check accepts exactly when no webhook secret is
configured (permissive fallback) or the header equals the keyed digest of
the raw body bytes under the secret; and whenever it rejects, the webhook
endpoint answers 401 with no state mutation at all, whatever the payload
says. -/
theorem verifyWebhookSignature_spec (hmacSha512Hex : String → List Nat → String)
    (secret : Option String) (rawBody : List Nat) (signature : Option String) :
    (verifyPaystackWebhookSignature hmacSha512Hex secret rawBody signature = true ↔
      secret = none ∨ ∃ s, secret = some s ∧ signature = some (hmacSha512Hex s rawBody)) ∧
    (∀ db req now,
      verifyPaystackWebhookSignature hmacSha512Hex secret req.rawBody req.signature = false →
      paystackWebhookHandler hmacSha512Hex secret db req now =
        ({ status := 401, idempotent := none }, db)) := by
  constructor
  · cases secret with
    | none => simp [verifyPaystackWebhookSignature]
    | some s =>
      cases signature with
      | none => simp [verifyPaystackWebhookSignature]
      | some sig =>
        simp only [verifyPaystackWebhookSignature]
        constructor
        · intro hb
          exact Or.inr ⟨s, rfl, by rw [eq_of_beq hb]⟩
        · intro hcase
          rcases hcase with hnone | ⟨s2, hs2, hsig⟩
          · exact absurd hnone (Option.some_ne_none s)
          · have h2 : sig = hmacSha512Hex s2 rawBody := by injection hsig
            have h1 : s = s2 := by injection hs2
            subst h1
            rw [h2]
            exact beq_self_eq_true _
  · intro db req now hv
    simp [paystackWebhookHandler, hv]

/-- C4 witness: a wrongly signed demo webhook is rejected with 401 and the
demo store is returned unchanged. -/
theorem verifyWebhookSignature_spec_witness :
    paystackWebhookHandler demoHmac (some "k") demoDB
        { demoWebhookReq with signature := some "wrong" } 7 =
      ({ status := 401, idempotent := none }, demoDB) :=
  (verifyWebhookSignature_spec demoHmac (some "k") [123, 125] (some "wrong")).2
    demoDB { demoWebhookReq with signature := some "wrong" } 7 (by decide)

/-- Saving a payment that keeps the id and provider reference of the first
payment matching a reference leaves the saved copy the first match. -/
lemma findPayment_save (ps : List Payment) (reference : String) (p q : Payment)
    (hfind : ps.find? (fun x => x.providerRef == reference) = some p)
    (hid : q.id = p.id) (href : q.providerRef = p.providerRef) :
    (savePayment ps q).find? (fun x => x.providerRef == reference) = some q := by
  induction ps with
  | nil => exact absurd hfind (by simp)
  | cons hd tl ih =>
    rw [List.find?_cons] at hfind
    split at hfind
    · rename_i hhd
      have hp : hd = p := by injection hfind
      have hq : (hd.id == q.id) = true := by
        rw [hp, hid]
        exact beq_self_eq_true p.id
      have hqr : (q.providerRef == reference) = true := by
        rw [href, ← hp]
        exact hhd
      simp only [savePayment, hq, if_true]
      simp [List.find?_cons, hqr]
    · rename_i hhd
      have hpref0 := List.find?_some hfind
      have hpref : (p.providerRef == reference) = true := hpref0
      by_cases hq : (hd.id == q.id) = true
      · have hqr : (q.providerRef == reference) = true := by
          rw [href]
          exact hpref
        simp only [savePayment, hq, if_true]
        simp [List.find?_cons, hqr]
      · simp only [savePayment, hq, if_false]
        simp [List.find?_cons, hhd, ih hfind]

/-- Saving an order that keeps the id of the first order with a given id
leaves the saved copy the first match for that id. -/
lemma findOrder_save (os : List Order) (orderId : Nat) (o q : Order)
    (hfind : os.find? (fun x => x.id == orderId) = some o)
    (hid : q.id = o.id) :
    (saveOrder os q).find? (fun x => x.id == orderId) = some q := by
  induction os with
  | nil => exact absurd hfind (by simp)
  | cons hd tl ih =>
    rw [List.find?_cons] at hfind
    split at hfind
    · rename_i hhd
      have hp : hd = o := by injection hfind
      have hq : (hd.id == q.id) = true := by
        rw [hp, hid]
        exact beq_self_eq_true o.id
      have hqo : (q.id == orderId) = true := by
        rw [hid, ← hp]
        exact hhd
      simp only [saveOrder, hq, if_true]
      simp [List.find?_cons, hqo]
    · rename_i hhd
      have hoid0 := List.find?_some hfind
      have hoid : (o.id == orderId) = true := hoid0
      by_cases hq : (hd.id == q.id) = true
      · exfalso
        have h1 : hd.id = q.id := eq_of_beq hq
        have h2 : o.id = orderId := eq_of_beq hoid
        rw [h1, hid, h2, beq_self_eq_true] at hhd
        simp at hhd
      · simp only [saveOrder, hq, if_false]
        simp [List.find?_cons, hhd, ih hfind]

/-- After any successful finalize call, the returned payment is the first
payment carrying the reference in the returned store, it is marked
`success`, and looking its order up in the returned store yields the
returned order. -/
lemma finalize_post (db : DB) (reference : String) (metadata : List (String × String))
    (now : Nat) (db2 : DB) (r : FinalizeOk)
    (h : finalizeSuccessfulPayment db reference metadata now = .ok (db2, r)) :
    findPayment db2 reference = some r.payment ∧ r.payment.status = .success ∧
    findOrderById db2 r.payment.orderId = some r.order := by
  cases hp : findPayment db reference with
  | none => simp [finalizeSuccessfulPayment, hp] at h
  | some p =>
    cases ho : findOrderById db p.orderId with
    | none => simp [finalizeSuccessfulPayment, hp, ho] at h
    | some o =>
      by_cases hs : p.status = .success
      · have h2 := h
        simp only [finalizeSuccessfulPayment, hp, ho, if_pos hs, Except.ok.injEq,
          Prod.mk.injEq] at h2
        obtain ⟨hdb, hr⟩ := h2
        subst hdb
        subst hr
        exact ⟨hp, hs, ho⟩
      · have h2 := h
        simp only [finalizeSuccessfulPayment, hp, ho, if_neg hs] at h2
        cases hd : applyLineDecrements o.tenantId db.products o.lines with
        | error e => rw [hd] at h2; simp at h2
        | ok products2 =>
          rw [hd] at h2
          simp only [Except.ok.injEq, Prod.mk.injEq] at h2
          obtain ⟨hdb, hr⟩ := h2
          subst hdb
          subst hr
          refine ⟨?_, rfl, ?_⟩
          · exact findPayment_save db.payments reference p _ hp rfl rfl
          · exact findOrder_save db.orders p.orderId o _ ho rfl

/-- C1: a finalize call for a payment already marked `success` returns
`idempotent = true` with the store untouched — same payments, orders,
stock, carts and notification queue — and consequently a second finalize
call after any successful first call leaves the first call's state
unchanged, reporting `idempotent = true`. -/
theorem finalize_idempotent (db : DB) (reference : String)
    (metadata : List (String × String)) (now : Nat) (p : Payment) (o : Order)
    (hp : findPayment db reference = some p)
    (ho : findOrderById db p.orderId = some o)
    (hs : p.status = .success) :
    finalizeSuccessfulPayment db reference metadata now =
      .ok (db, { payment := p, order := o, idempotent := true }) ∧
    ∀ db0 md1 now1 db1 r1 md2 now2,
      finalizeSuccessfulPayment db0 reference md1 now1 = .ok (db1, r1) →
      finalizeSuccessfulPayment db1 reference md2 now2 =
        .ok (db1, { payment := r1.payment, order := r1.order, idempotent := true }) := by
  constructor
  · simp [finalizeSuccessfulPayment, hp, ho, hs]
  · intro db0 md1 now1 db1 r1 md2 now2 h1
    obtain ⟨hp1, hs1, ho1⟩ := finalize_post db0 reference md1 now1 db1 r1 h1
    simp [finalizeSuccessfulPayment, hp1, ho1, hs1]

/-- C1 witness: replaying finalize on the already-successful demo payment
returns `idempotent = true` and the untouched demo store. -/
theorem finalize_idempotent_witness :
    finalizeSuccessfulPayment demoPaidDB "PAY-1-AAA" [("source", "webhook")] 99 =
      .ok (demoPaidDB, { payment := demoPaidPayment, order := demoOrder, idempotent := true }) :=
  (finalize_idempotent demoPaidDB "PAY-1-AAA" [("source", "webhook")] 99
    demoPaidPayment demoOrder rfl rfl rfl).1

/-- `decrementFirstWithStock` splits the variant list around the first
variant with stock at least `qty` and decrements exactly that variant,
leaving every other variant untouched. -/
lemma decrementFirstWithStock_spec (vs : List Variant) (qty : Int)
    (h : hasVariantStock vs qty = true) :
    ∃ vpre v vpost, vs = vpre ++ v :: vpost ∧ qty ≤ v.stock ∧
      (∀ u ∈ vpre, ¬ qty ≤ u.stock) ∧
      decrementFirstWithStock vs qty = vpre ++ { v with stock := v.stock - qty } :: vpost := by
  induction vs with
  | nil => simp [hasVariantStock] at h
  | cons hd tl ih =>
    by_cases hc : qty ≤ hd.stock
    · refine ⟨[], hd, tl, rfl, hc, by simp, ?_⟩
      simp [decrementFirstWithStock, hc]
    · have h2 : hasVariantStock tl qty = true := by
        simp only [hasVariantStock, List.any_cons, Bool.or_eq_true] at h
        rcases h with h1 | h1
        · exact absurd (of_decide_eq_true h1) hc
        · exact h1
      obtain ⟨vpre, v, vpost, hsplit, hstock, hpre, hres⟩ := ih h2
      refine ⟨hd :: vpre, v, vpost, by simp [hsplit], hstock, ?_, ?_⟩
      · intro u hu
        rcases List.mem_cons.mp hu with h1 | h1
        · rw [h1]
          exact hc
        · exact hpre u h1
      · simp [decrementFirstWithStock, hc, hres]

/-- A successful conditional stock update splits the product list around
the first product matching the filter — some variant carries the id and
some, possibly different, variant has stock at least the quantity — and
applies the positional decrement to it; every other product is untouched. -/
lemma condDecrementStock_spec (ps : List Product) (productId tenantId variantId : Nat)
    (qty : Int) (ps2 : List Product)
    (h : condDecrementStock ps productId tenantId variantId qty = some ps2) :
    ∃ pre p post,
      ps = pre ++ p :: post ∧ p.id = productId ∧ p.tenantId = tenantId ∧
      hasVariantId p.variants variantId = true ∧ hasVariantStock p.variants qty = true ∧
      ps2 = pre ++ { p with variants := decrementFirstWithStock p.variants qty } :: post := by
  induction ps generalizing ps2 with
  | nil => simp [condDecrementStock] at h
  | cons hd tl ih =>
    simp only [condDecrementStock] at h
    by_cases hc : (hd.id == productId && hd.tenantId == tenantId &&
        hasVariantId hd.variants variantId && hasVariantStock hd.variants qty) = true
    · rw [if_pos hc] at h
      simp only [Bool.and_eq_true] at hc
      obtain ⟨⟨⟨hcid, hctid⟩, hcvid⟩, hcstock⟩ := hc
      injection h with h2
      exact ⟨[], hd, tl, rfl, eq_of_beq hcid, eq_of_beq hctid, hcvid, hcstock, by simp [← h2]⟩
    · rw [if_neg hc] at h
      rw [Option.map_eq_some'] at h
      obtain ⟨tl2, htl, hcons⟩ := h
      obtain ⟨pre, p, post, hsplit, hpid, hptid, hvid, hstock, hres⟩ := ih tl2 htl
      exact ⟨hd :: pre, p, post, by simp [hsplit], hpid, hptid, hvid, hstock,
        by simp [← hcons, hres]⟩

/-- A successful conditional stock update never introduces a negative
stock value: the decremented element is the first with stock at least the
quantity, so it stays non-negative. -/
lemma condDecrementStock_nonneg (ps : List Product) (productId tenantId variantId : Nat)
    (qty : Int) (ps2 : List Product)
    (h : condDecrementStock ps productId tenantId variantId qty = some ps2)
    (hnn : ∀ p ∈ ps, ∀ v ∈ p.variants, 0 ≤ v.stock) :
    ∀ p ∈ ps2, ∀ v ∈ p.variants, 0 ≤ v.stock := by
  obtain ⟨pre, p, post, hsplit, -, -, -, hstock, hres⟩ :=
    condDecrementStock_spec ps productId tenantId variantId qty ps2 h
  obtain ⟨vpre, v, vpost, hvsplit, hvstock, -, hvres⟩ :=
    decrementFirstWithStock_spec p.variants qty hstock
  subst hres
  intro q hq w hw
  rcases List.mem_append.mp hq with hq1 | hq2
  · exact hnn q (hsplit ▸ List.mem_append.mpr (Or.inl hq1)) w hw
  · rcases List.mem_cons.mp hq2 with hq3 | hq4
    · subst hq3
      simp only at hw
      rw [hvres] at hw
      rcases List.mem_append.mp hw with hw1 | hw2
      · exact hnn p (hsplit ▸ List.mem_append.mpr (Or.inr (List.mem_cons_self p post)))
          w (hvsplit ▸ List.mem_append.mpr (Or.inl hw1))
      · rcases List.mem_cons.mp hw2 with hw3 | hw4
        · subst hw3
          simpa using Int.sub_nonneg.mpr hvstock
        · exact hnn p (hsplit ▸ List.mem_append.mpr (Or.inr (List.mem_cons_self p post)))
            w (hvsplit ▸ List.mem_append.mpr (Or.inr (List.mem_cons_of_mem v hw4)))
    · exact hnn q (hsplit ▸ List.mem_append.mpr (Or.inr (List.mem_cons_of_mem p hq4))) w hw

/-- The per-order-line decrement loop preserves stock non-negativity. -/
lemma applyLineDecrements_nonneg (tenantId : Nat) (lines : List OrderLine)
    (products products2 : List Product)
    (h : applyLineDecrements tenantId products lines = .ok products2)
    (hnn : ∀ p ∈ products, ∀ v ∈ p.variants, 0 ≤ v.stock) :
    ∀ p ∈ products2, ∀ v ∈ p.variants, 0 ≤ v.stock := by
  induction lines generalizing products with
  | nil =>
    simp only [applyLineDecrements] at h
    injection h with h2
    exact h2 ▸ hnn
  | cons line rest ih =>
    simp only [applyLineDecrements] at h
    cases hc : condDecrementStock products line.productId tenantId line.variantId line.quantity with
    | none => rw [hc] at h; simp at h
    | some mid =>
      rw [hc] at h
      exact ih mid h (condDecrementStock_nonneg products line.productId tenantId
        line.variantId line.quantity mid hc hnn)

/-- C2 counterexample: the ordered variant (id 1000) has stock 0, so the
claim requires the conditional update to match nothing and the whole unit
to fail with the payment left `initialized` — but the filter's decoupled
conditions match through the sibling variant (id 2000, stock 10): the
update reports one modified document, the positional decrement hits the
sibling (10 → 8), the ordered variant stays at 0, and finalize commits
with the payment marked `success` instead of rolling back. -/
theorem finalize_decrement_decoupled :
    condDecrementStock [demoMixedProduct] 100 1 1000 2 =
      some [{ id := 100, tenantId := 1,
              variants := [{ id := 1000, stock := 0 }, { id := 2000, stock := 8 }] }] ∧
    (finalizeSuccessfulPayment demoMixedDB "PAY-1-AAA" [] 99).map
        (fun x => (x.2.idempotent, x.2.payment.status,
          x.1.products.map (fun p => p.variants.map (fun v => (v.id, v.stock))))) =
      .ok (false, .success, [[(1000, 0), (2000, 8)]]) :=
  ⟨by decide, by rfl⟩

/-- C2 amended: (1) each line's conditional update matches exactly when
the product holds some variant with the line's id and some — possibly
different — variant with stock at least the quantity (the filter has no
`$elemMatch`), and then decrements the first variant with sufficient
stock by exactly the quantity, leaving everything else untouched; (2)
when any line's update matches nothing the whole finalize call fails with
that line's stock conflict — the aborted transaction exposes no new
state, so the payment stays `initialized` and the order, stock and cart
are unchanged, making the multi-line decrement all-or-nothing; (3) under
this resolution of the positional operator a finalize call never drives
any variant's stock negative, though it may decrement a sibling of an
under-provisioned ordered variant instead of failing. -/
theorem finalize_stock_spec :
    (∀ ps productId tenantId variantId qty ps2,
      condDecrementStock ps productId tenantId variantId qty = some ps2 →
      ∃ pre p post vpre v vpost,
        ps = pre ++ p :: post ∧ p.id = productId ∧ p.tenantId = tenantId ∧
        hasVariantId p.variants variantId = true ∧
        p.variants = vpre ++ v :: vpost ∧ qty ≤ v.stock ∧ (∀ u ∈ vpre, ¬ qty ≤ u.stock) ∧
        ps2 = pre ++
          { p with variants := vpre ++ { v with stock := v.stock - qty } :: vpost } :: post) ∧
    (∀ db reference metadata now p o e,
      findPayment db reference = some p →
      findOrderById db p.orderId = some o →
      p.status ≠ .success →
      applyLineDecrements o.tenantId db.products o.lines = .error e →
      finalizeSuccessfulPayment db reference metadata now = .error e) ∧
    (∀ db reference metadata now db2 r,
      (∀ p ∈ db.products, ∀ v ∈ p.variants, 0 ≤ v.stock) →
      finalizeSuccessfulPayment db reference metadata now = .ok (db2, r) →
      ∀ p ∈ db2.products, ∀ v ∈ p.variants, 0 ≤ v.stock) := by
  refine ⟨?_, ?_, ?_⟩
  · intro ps productId tenantId variantId qty ps2 h
    obtain ⟨pre, p, post, hsplit, hpid, hptid, hvid, hstock, hres⟩ :=
      condDecrementStock_spec ps productId tenantId variantId qty ps2 h
    obtain ⟨vpre, v, vpost, hvsplit, hvstock, hvpre, hvres⟩ :=
      decrementFirstWithStock_spec p.variants qty hstock
    exact ⟨pre, p, post, vpre, v, vpost, hsplit, hpid, hptid, hvid, hvsplit, hvstock, hvpre,
      by rw [hres, hvres]⟩
  · intro db reference metadata now p o e hp ho hs hd
    simp only [finalizeSuccessfulPayment, hp, ho, if_neg hs, hd]
  · intro db reference metadata now db2 r hnn h
    cases hp : findPayment db reference with
    | none => simp [finalizeSuccessfulPayment, hp] at h
    | some p =>
      cases ho : findOrderById db p.orderId with
      | none => simp [finalizeSuccessfulPayment, hp, ho] at h
      | some o =>
        by_cases hs : p.status = .success
        · simp only [finalizeSuccessfulPayment, hp, ho, if_pos hs, Except.ok.injEq,
            Prod.mk.injEq] at h
          obtain ⟨hdb, -⟩ := h
          exact hdb ▸ hnn
        · simp only [finalizeSuccessfulPayment, hp, ho, if_neg hs] at h
          cases hd : applyLineDecrements o.tenantId db.products o.lines with
          | error e => rw [hd] at h; simp at h
          | ok products2 =>
            rw [hd] at h
            simp only [Except.ok.injEq, Prod.mk.injEq] at h
            obtain ⟨hdb, -⟩ := h
            subst hdb
            exact applyLineDecrements_nonneg o.tenantId o.lines db.products products2 hd hnn

/-- The demo store after a successful finalize run. -/
def demoFinalDB : DB :=
  match finalizeSuccessfulPayment demoDB "PAY-1-AAA" [("source", "webhook")] 99 with
  | .ok (db2, _) => db2
  | .error _ => demoDB

/-- The finalize result record of the successful demo run. -/
def demoFinalResult : FinalizeOk :=
  match finalizeSuccessfulPayment demoDB "PAY-1-AAA" [("source", "webhook")] 99 with
  | .ok (_, r) => r
  | .error _ => { payment := demoPayment, order := demoOrder, idempotent := true }

/-- C2 witness (amended claim): finalize on the short-stock demo store —
where no variant reaches the quantity, so the filter matches nothing —
aborts with the stock conflict, and the successfully finalized demo store
has only non-negative stock. -/
theorem finalize_stock_spec_witness :
    finalizeSuccessfulPayment demoShortDB "PAY-1-AAA" [] 99 =
      .error (.stockConflict 100) ∧
    ∀ p ∈ demoFinalDB.products, ∀ v ∈ p.variants, 0 ≤ v.stock := by
  constructor
  · exact finalize_stock_spec.2.1 demoShortDB "PAY-1-AAA" [] 99
      demoPayment demoOrder (.stockConflict 100) rfl rfl (by decide) rfl
  · exact finalize_stock_spec.2.2 demoDB "PAY-1-AAA" [("source", "webhook")] 99
      demoFinalDB demoFinalResult (by decide) rfl

/-- Address resolution fails only with 404 or 400, never with 201. -/
lemma resolveShippingAddress_error (db : DB) (tenantId userId : Nat) (req : CheckoutReq)
    (code : Nat) (h : resolveShippingAddress db tenantId userId req = .error code) :
    code = 404 ∨ code = 400 := by
  unfold resolveShippingAddress at h
  split at h
  · split at h
    · injection h with h2
      exact Or.inl h2.symm
    · exact absurd h (by simp)
  · split at h
    · exact absurd h (by simp)
    all_goals
      injection h with h2
      exact Or.inr h2.symm

/-- C6: checkout initiation persists nothing unless it answers 201: a
gateway error (reached only after the early validations) leaves the store
untouched, a commit failure leaves the store untouched, every non-201
answer leaves the store untouched, and a 201 answer appends exactly one
pending order carrying a single timeline entry together with its
`initialized` payment — so no orphaned half of the pair ever exists. -/
theorem initializeCheckout_atomic (db : DB) (tenantId userId : Nat) (req : CheckoutReq)
    (gatewayResult : Except Unit PaystackInitData) (now : Nat) (rand : String)
    (commitOk : Bool) (resp : HttpResponse) (db2 : DB)
    (h : initializeCheckout db tenantId userId req gatewayResult now rand commitOk =
      (resp, db2)) :
    (gatewayResult = .error () → db2 = db) ∧
    (commitOk = false → db2 = db) ∧
    (resp.status ≠ 201 → db2 = db) ∧
    (resp.status = 201 →
      ∃ order payment,
        db2.orders = db.orders ++ [order] ∧
        db2.payments = db.payments ++ [payment] ∧
        order.status = .pending ∧
        order.timeline.length = 1 ∧
        payment.status = .initialized ∧
        payment.orderId = order.id ∧
        db2.carts = db.carts ∧ db2.products = db.products) := by
  cases hcart : findCart db tenantId userId with
  | none =>
    simp only [initializeCheckout, hcart] at h
    cases h
    exact ⟨fun _ => rfl, fun _ => rfl, fun _ => rfl, fun hs => absurd hs (by decide)⟩
  | some cart =>
    by_cases hemp : cart.lines.isEmpty = true
    · simp only [initializeCheckout, hcart, if_pos hemp] at h
      cases h
      exact ⟨fun _ => rfl, fun _ => rfl, fun _ => rfl, fun hs => absurd hs (by decide)⟩
    · cases haddr : resolveShippingAddress db tenantId userId req with
      | error code =>
        simp only [initializeCheckout, hcart, if_neg hemp, haddr] at h
        cases h
        rcases resolveShippingAddress_error db tenantId userId req code haddr with hc | hc <;>
          subst hc <;>
          exact ⟨fun _ => rfl, fun _ => rfl, fun _ => rfl, fun hs => absurd hs (by decide)⟩
      | ok shippingAddress =>
        cases gatewayResult with
        | error u =>
          simp only [initializeCheckout, hcart, if_neg hemp, haddr] at h
          cases h
          exact ⟨fun _ => rfl, fun _ => rfl, fun _ => rfl, fun hs => absurd hs (by decide)⟩
        | ok paystack =>
          simp only [initializeCheckout, hcart, if_neg hemp, haddr] at h
          split at h
          · cases h
            exact ⟨fun hge => Except.noConfusion hge, fun _ => rfl, fun _ => rfl,
              fun hs => absurd hs (by decide)⟩
          · split at h
            · cases h
              exact ⟨fun hge => Except.noConfusion hge, fun _ => rfl, fun _ => rfl,
                fun hs => absurd hs (by decide)⟩
            · split at h
              · cases h
                exact ⟨fun hge => Except.noConfusion hge, fun _ => rfl, fun _ => rfl,
                  fun hs => absurd hs (by decide)⟩
              · rename_i hcommit
                cases h
                refine ⟨fun hge => Except.noConfusion hge, ?_, ?_, ?_⟩
                · intro hcf
                  subst hcf
                  simp at hcommit
                · intro hs
                  exact absurd rfl hs
                · intro _
                  exact ⟨_, _, rfl, rfl, rfl, rfl, rfl, rfl, rfl, rfl⟩

/-- C6 witness: the demo checkout succeeds with 201 and appends exactly the
order/payment pair, while the same request with a failing gateway call
leaves the store untouched. -/
theorem initializeCheckout_atomic_witness :
    (∃ order payment,
      demoCheckoutDB1.orders = demoTwoTenantDB.orders ++ [order] ∧
      demoCheckoutDB1.payments = demoTwoTenantDB.payments ++ [payment] ∧
      order.status = .pending ∧ order.timeline.length = 1 ∧
      payment.status = .initialized ∧ payment.orderId = order.id ∧
      demoCheckoutDB1.carts = demoTwoTenantDB.carts ∧
      demoCheckoutDB1.products = demoTwoTenantDB.products) ∧
    (initializeCheckout demoTwoTenantDB 1 10 demoCheckoutReq (.error ()) 777 "AAAAAA" true).2 =
      demoTwoTenantDB := by
  constructor
  · exact (initializeCheckout_atomic demoTwoTenantDB 1 10 demoCheckoutReq demoGatewayOk
      777 "AAAAAA" true
      (initializeCheckout demoTwoTenantDB 1 10 demoCheckoutReq demoGatewayOk 777 "AAAAAA" true).1
      demoCheckoutDB1 rfl).2.2.2 (by decide)
  · exact (initializeCheckout_atomic demoTwoTenantDB 1 10 demoCheckoutReq (.error ())
      777 "AAAAAA" true
      (initializeCheckout demoTwoTenantDB 1 10 demoCheckoutReq (.error ()) 777 "AAAAAA" true).1
      (initializeCheckout demoTwoTenantDB 1 10 demoCheckoutReq (.error ()) 777 "AAAAAA" true).2
      rfl).1 rfl

/-- C7 counterexample: a correctly signed, well-formed `charge.success`
webhook whose reference is unknown to the store is answered 404, not 200 —
the handler maps finalize failures to 404/500 instead of acknowledging
with 200. -/
theorem webhook_not_always_200 :
    verifyPaystackWebhookSignature demoHmac (some "k")
      ({ demoWebhookReq with reference := some "PAY-NONE" } : WebhookReq).rawBody
      ({ demoWebhookReq with reference := some "PAY-NONE" } : WebhookReq).signature = true ∧
    (paystackWebhookHandler demoHmac (some "k") demoDB
      { demoWebhookReq with reference := some "PAY-NONE" } 7).1.status = 404 ∧
    (paystackWebhookHandler demoHmac (some "k") demoDB
      { demoWebhookReq with reference := some "PAY-NONE" } 7).1.status ≠ 200 := by
  refine ⟨by decide, by decide, by decide⟩

/-- C7 amended: an authenticated webhook is answered 200 when the event is
not `charge.success` or when finalize succeeds (including idempotent
replays); a `charge.success` event with no reference yields 400; a failing
finalize yields 404 when the error message includes "not found" and 500
otherwise — and every non-finalizing branch leaves the store untouched. -/
theorem webhook_status_spec (hmacSha512Hex : String → List Nat → String)
    (secret : Option String) (db : DB) (req : WebhookReq) (now : Nat)
    (resp : HttpResponse) (db2 : DB)
    (hauth : verifyPaystackWebhookSignature hmacSha512Hex secret req.rawBody req.signature = true)
    (h : paystackWebhookHandler hmacSha512Hex secret db req now = (resp, db2)) :
    (req.event ≠ "charge.success" → resp.status = 200 ∧ db2 = db) ∧
    (req.event = "charge.success" → req.reference = none → resp.status = 400 ∧ db2 = db) ∧
    (∀ reference, req.event = "charge.success" → req.reference = some reference →
      (∀ dbr r,
        finalizeSuccessfulPayment db reference (webhookMetadata req) now = .ok (dbr, r) →
        resp.status = 200 ∧ db2 = dbr) ∧
      (∀ e,
        finalizeSuccessfulPayment db reference (webhookMetadata req) now = .error e →
        db2 = db ∧
        resp.status = (if strIncludes e.message "not found" then 404 else 500))) := by
  simp only [paystackWebhookHandler, hauth, not_true, if_false] at h
  refine ⟨?_, ?_, ?_⟩
  · intro hne
    rw [if_pos hne] at h
    cases h
    exact ⟨rfl, rfl⟩
  · intro hev href
    rw [if_neg (not_not_intro hev), href] at h
    cases h
    exact ⟨rfl, rfl⟩
  · intro reference hev href
    rw [if_neg (not_not_intro hev)] at h
    simp only [href] at h
    constructor
    · intro dbr r hf
      simp only [hf] at h
      cases h
      exact ⟨rfl, rfl⟩
    · intro e hf
      simp only [hf] at h
      by_cases hsub : strIncludes e.message "not found" = true
      · rw [if_pos hsub] at h
        cases h
        exact ⟨rfl, by rw [if_pos hsub]⟩
      · rw [if_neg hsub] at h
        cases h
        exact ⟨rfl, by rw [if_neg hsub]⟩

/-- C7 witness (amended claim): the authenticated idempotent replay on the
demo store is acknowledged with 200. -/
theorem webhook_status_spec_witness :
    (paystackWebhookHandler demoHmac (some "k") demoPaidDB demoWebhookReq 7).1.status = 200 := by
  have h := webhook_status_spec demoHmac (some "k") demoPaidDB demoWebhookReq 7
    (paystackWebhookHandler demoHmac (some "k") demoPaidDB demoWebhookReq 7).1
    (paystackWebhookHandler demoHmac (some "k") demoPaidDB demoWebhookReq 7).2
    (by decide) rfl
  exact ((h.2.2 "PAY-1-AAA" rfl rfl).1 demoPaidDB
    { payment := demoPaidPayment, order := demoOrder, idempotent := true } (by rfl)).1

/-- C8 counterexample: two checkout initiations in different tenants at
the same millisecond with the same random suffix persist two payments
sharing one provider reference — the per-tenant unique index does not stop
the second insert — and the tenant-less finalize lookup then resolves the
first-inserted (tenant 1) payment, whichever tenant's confirmation is
being processed. -/
theorem crossTenant_reference_collision :
    demoCheckoutDB2.payments.map (fun p => (p.tenantId, p.providerRef)) =
      [(1, "PAY-777-AAAAAA"), (2, "PAY-777-AAAAAA")] ∧
    (findPayment demoCheckoutDB2 "PAY-777-AAAAAA").map (fun p => p.tenantId) = some 1 :=
  ⟨by decide, by decide⟩

/-- The invariant enforced by the `{tenantId, providerRef}` unique index:
no two payments agree on both tenant and provider reference. -/
def paymentsRefUniquePerTenant (db : DB) : Prop :=
  db.payments.Pairwise (fun p q => ¬ (p.tenantId = q.tenantId ∧ p.providerRef = q.providerRef))

/-- C8 amended: provider references are unique per tenant — checkout
initiation preserves the `{tenantId, providerRef}` unique-index invariant,
aborting on an in-tenant duplicate — and the tenant-less finalize lookup
returns a payment carrying the requested reference; but nothing prevents
two tenants from holding the same reference, in which case the lookup
resolves the first-inserted payment. -/
theorem paymentRef_uniquePerTenant (db : DB) (tenantId userId : Nat) (req : CheckoutReq)
    (gatewayResult : Except Unit PaystackInitData) (now : Nat) (rand : String)
    (commitOk : Bool) (resp : HttpResponse) (db2 : DB)
    (hu : paymentsRefUniquePerTenant db)
    (h : initializeCheckout db tenantId userId req gatewayResult now rand commitOk =
      (resp, db2)) :
    paymentsRefUniquePerTenant db2 ∧
    (∀ reference p, findPayment db reference = some p → p.providerRef = reference) := by
  constructor
  · cases hcart : findCart db tenantId userId with
    | none =>
      simp only [initializeCheckout, hcart] at h
      cases h
      exact hu
    | some cart =>
      by_cases hemp : cart.lines.isEmpty = true
      · simp only [initializeCheckout, hcart, if_pos hemp] at h
        cases h
        exact hu
      · cases haddr : resolveShippingAddress db tenantId userId req with
        | error code =>
          simp only [initializeCheckout, hcart, if_neg hemp, haddr] at h
          cases h
          exact hu
        | ok shippingAddress =>
          cases gatewayResult with
          | error u =>
            simp only [initializeCheckout, hcart, if_neg hemp, haddr] at h
            cases h
            exact hu
          | ok paystack =>
            simp only [initializeCheckout, hcart, if_neg hemp, haddr] at h
            split at h
            · cases h
              exact hu
            · split at h
              · cases h
                exact hu
              · rename_i hdup
                split at h
                · cases h
                  exact hu
                · cases h
                  unfold paymentsRefUniquePerTenant at hu ⊢
                  simp only
                  rw [List.pairwise_append]
                  refine ⟨hu, List.pairwise_singleton _ _, ?_⟩
                  intro a ha b hb
                  rw [List.mem_singleton] at hb
                  subst hb
                  rintro ⟨hteq, hreq⟩
                  have hfalse := (List.any_eq_false.mp (Bool.eq_false_iff.mpr hdup)) a ha
                  apply hfalse
                  rw [Bool.and_eq_true]
                  exact ⟨beq_iff_eq.mpr hteq, beq_iff_eq.mpr hreq⟩
  · intro reference p hf
    have h0 := List.find?_some
      (show db.payments.find? (fun q => q.providerRef == reference) = some p from hf)
    exact eq_of_beq h0

/-- C8 witness: the first demo checkout preserves the per-tenant
uniqueness invariant on the initially empty payment collection. -/
theorem paymentRef_uniquePerTenant_witness :
    paymentsRefUniquePerTenant demoCheckoutDB1 :=
  (paymentRef_uniquePerTenant demoTwoTenantDB 1 10 demoCheckoutReq demoGatewayOk
    777 "AAAAAA" true
    (initializeCheckout demoTwoTenantDB 1 10 demoCheckoutReq demoGatewayOk 777 "AAAAAA" true).1
    demoCheckoutDB1 (by unfold paymentsRefUniquePerTenant; exact List.Pairwise.nil) rfl).1

/-- Position by position, each order's timeline in the second list extends
the timeline of the order at the same position in the first list by some
appended suffix. -/
def timelinesExtend : List Order → List Order → Prop
  | [], [] => True
  | _ :: _, [] => False
  | [], _ :: _ => False
  | o :: os, o2 :: os2 => (∃ t, o2.timeline = o.timeline ++ t) ∧ timelinesExtend os os2

/-- Unchanged orders extend themselves (empty suffix). -/
lemma timelinesExtend_refl (os : List Order) : timelinesExtend os os := by
  induction os with
  | nil => trivial
  | cons o os ih => exact ⟨⟨[], by simp⟩, ih⟩

/-- Saving an order whose timeline extends that of the member it replaces
(matched by id, under distinct ids) extends the collection pointwise. -/
lemma timelinesExtend_saveOrder (os : List Order) (o0 q : Order)
    (hmem : o0 ∈ os) (hid : q.id = o0.id)
    (hext : ∃ t, q.timeline = o0.timeline ++ t)
    (hids : os.Pairwise (fun a b => a.id ≠ b.id)) :
    timelinesExtend os (saveOrder os q) := by
  induction os with
  | nil => cases hmem
  | cons hd tl ih =>
    rw [List.pairwise_cons] at hids
    obtain ⟨hhd, htl⟩ := hids
    by_cases hq : (hd.id == q.id) = true
    · simp only [saveOrder, hq, if_true]
      refine ⟨?_, timelinesExtend_refl tl⟩
      have hhd_eq : hd = o0 := by
        rcases List.mem_cons.mp hmem with h1 | h2
        · exact h1.symm
        · exfalso
          exact hhd o0 h2 (by rw [eq_of_beq hq, hid])
      rw [hhd_eq]
      exact hext
    · simp only [saveOrder, hq, if_false]
      refine ⟨⟨[], by simp⟩, ?_⟩
      rcases List.mem_cons.mp hmem with h1 | h2
      · exfalso
        apply hq
        rw [hid, h1]
        exact beq_self_eq_true _
      · exact ih h2 htl

/-- A successful finalize only appends to order timelines. -/
lemma finalize_timelinesExtend (db : DB) (reference : String)
    (metadata : List (String × String)) (now : Nat) (db2 : DB) (r : FinalizeOk)
    (hids : db.orders.Pairwise (fun a b => a.id ≠ b.id))
    (h : finalizeSuccessfulPayment db reference metadata now = .ok (db2, r)) :
    timelinesExtend db.orders db2.orders := by
  cases hp : findPayment db reference with
  | none => simp [finalizeSuccessfulPayment, hp] at h
  | some p =>
    cases ho : findOrderById db p.orderId with
    | none => simp [finalizeSuccessfulPayment, hp, ho] at h
    | some o =>
      by_cases hs : p.status = .success
      · simp only [finalizeSuccessfulPayment, hp, ho, if_pos hs, Except.ok.injEq,
          Prod.mk.injEq] at h
        obtain ⟨hdb, -⟩ := h
        exact hdb ▸ timelinesExtend_refl db.orders
      · simp only [finalizeSuccessfulPayment, hp, ho, if_neg hs] at h
        cases hd : applyLineDecrements o.tenantId db.products o.lines with
        | error e => rw [hd] at h; simp at h
        | ok products2 =>
          rw [hd] at h
          simp only [Except.ok.injEq, Prod.mk.injEq] at h
          obtain ⟨hdb, -⟩ := h
          subst hdb
          have hmem : o ∈ db.orders := List.mem_of_find?_eq_some
            (show db.orders.find? (fun x => x.id == p.orderId) = some o from ho)
          exact timelinesExtend_saveOrder db.orders o _ hmem rfl ⟨_, rfl⟩ hids

/-- The admin status route only appends to order timelines. -/
lemma updateOrderStatus_timelinesExtend (db : DB) (tenantId orderId : Nat)
    (req : AdminStatusReq) (actorRole : String) (now : Nat)
    (hids : db.orders.Pairwise (fun a b => a.id ≠ b.id)) :
    timelinesExtend db.orders (updateOrderStatus db tenantId orderId req actorRole now).2.orders := by
  cases ho : findOrderTenant db orderId tenantId with
  | none =>
    simp only [updateOrderStatus, ho]
    exact timelinesExtend_refl _
  | some order =>
    simp only [updateOrderStatus, ho]
    have hmem : order ∈ db.orders := List.mem_of_find?_eq_some
      (show db.orders.find? (fun x => x.id == orderId && x.tenantId == tenantId) = some order
        from ho)
    by_cases hcan : canTransition order.status req.status = true
    · rw [if_neg (not_not_intro hcan)]
      by_cases hship : req.status = .shipped ∧ req.trackingNumber = none ∧
          order.trackingNumber = none
      · rw [if_pos hship]
        exact timelinesExtend_refl _
      · rw [if_neg hship]
        by_cases hnotif : req.status = .paid ∨ req.status = .shipped ∨ req.status = .delivered
        · rw [if_pos hnotif]
          exact timelinesExtend_saveOrder db.orders order _ hmem rfl ⟨_, rfl⟩ hids
        · rw [if_neg hnotif]
          exact timelinesExtend_saveOrder db.orders order _ hmem rfl ⟨_, rfl⟩ hids
    · rw [if_pos hcan]
      exact timelinesExtend_refl _

/-- The carrier tracking-event route only appends to order timelines. -/
lemma processTrackingEvent_timelinesExtend (db : DB) (tenantId orderId : Nat)
    (req : TrackingEventReq) (actorRole : String) (now : Nat)
    (hids : db.orders.Pairwise (fun a b => a.id ≠ b.id)) :
    timelinesExtend db.orders
      (processTrackingEvent db tenantId orderId req actorRole now).2.orders := by
  cases ho : findOrderTenant db orderId tenantId with
  | none =>
    simp only [processTrackingEvent, ho]
    exact timelinesExtend_refl _
  | some order =>
    simp only [processTrackingEvent, ho]
    have hmem : order ∈ db.orders := List.mem_of_find?_eq_some
      (show db.orders.find? (fun x => x.id == orderId && x.tenantId == tenantId) = some order
        from ho)
    by_cases hcond : (req.status = "delivered" ∨ req.status = "out_for_delivery" ∨
        req.status = "in_transit") ∧ req.externalTrackingId ≠ ""
    · rw [if_pos hcond]
      exact timelinesExtend_saveOrder db.orders order _ hmem rfl ⟨_, rfl⟩ hids
    · rw [if_neg hcond]
      exact timelinesExtend_refl _

/-- C9: the three operations that mutate an existing order — finalize, the
admin status update, and carrier tracking-event processing — only append
to order timelines: position by position, the previous timeline is an
initial segment of the new one (order ids are distinct, as the document
store guarantees for `_id`). -/
theorem timeline_append_only :
    (∀ db reference metadata now db2 r,
      db.orders.Pairwise (fun a b => a.id ≠ b.id) →
      finalizeSuccessfulPayment db reference metadata now = .ok (db2, r) →
      timelinesExtend db.orders db2.orders) ∧
    (∀ db tenantId orderId req actorRole now,
      db.orders.Pairwise (fun a b => a.id ≠ b.id) →
      timelinesExtend db.orders
        (updateOrderStatus db tenantId orderId req actorRole now).2.orders) ∧
    (∀ db tenantId orderId req actorRole now,
      db.orders.Pairwise (fun a b => a.id ≠ b.id) →
      timelinesExtend db.orders
        (processTrackingEvent db tenantId orderId req actorRole now).2.orders) :=
  ⟨fun db reference metadata now db2 r hids h =>
      finalize_timelinesExtend db reference metadata now db2 r hids h,
   fun db tenantId orderId req actorRole now hids =>
      updateOrderStatus_timelinesExtend db tenantId orderId req actorRole now hids,
   fun db tenantId orderId req actorRole now hids =>
      processTrackingEvent_timelinesExtend db tenantId orderId req actorRole now hids⟩

/-- C9 witness: a concrete admin status update on the demo store only
appends to the demo order's timeline. -/
theorem timeline_append_only_witness :
    timelinesExtend demoDB.orders
      (updateOrderStatus demoDB 1 300
        { status := .processing, trackingNumber := none, note := none } "admin" 5).2.orders :=
  timeline_append_only.2.1 demoDB 1 300
    { status := .processing, trackingNumber := none, note := none } "admin" 5
    (by simp [demoDB])

/-- Pointwise cart-clear relation: each cart is either untouched or is a
cart keyed by the tenant/customer pair whose line list is emptied with
every other field kept. -/
def cartsClearSpec : List Cart → List Cart → Nat → Nat → Prop
  | [], [], _, _ => True
  | _ :: _, [], _, _ => False
  | [], _ :: _, _, _ => False
  | c :: cs, c2 :: cs2, tenantId, userId =>
    (c2 = c ∨ (c.tenantId = tenantId ∧ c.userId = some userId ∧ c2 = { c with lines := [] })) ∧
    cartsClearSpec cs cs2 tenantId userId

/-- An unchanged cart list satisfies the clear relation. -/
lemma cartsClearSpec_refl (cs : List Cart) (tenantId userId : Nat) :
    cartsClearSpec cs cs tenantId userId := by
  induction cs with
  | nil => trivial
  | cons c cs ih => exact ⟨Or.inl rfl, ih⟩

/-- `clearCartLines` satisfies the pointwise clear relation. -/
lemma clearCartLines_spec (cs : List Cart) (tenantId userId : Nat) :
    cartsClearSpec cs (clearCartLines cs tenantId userId) tenantId userId := by
  induction cs with
  | nil => trivial
  | cons c cs ih =>
    simp only [clearCartLines]
    by_cases hc : (c.tenantId == tenantId && c.userId == some userId) = true
    · rw [if_pos hc]
      rw [Bool.and_eq_true] at hc
      exact ⟨Or.inr ⟨eq_of_beq hc.1, eq_of_beq hc.2, rfl⟩, cartsClearSpec_refl cs tenantId userId⟩
    · rw [if_neg hc]
      exact ⟨Or.inl rfl, ih⟩

/-- `clearCartLines` preserves the number of carts. -/
lemma clearCartLines_length (cs : List Cart) (tenantId userId : Nat) :
    (clearCartLines cs tenantId userId).length = cs.length := by
  induction cs with
  | nil => rfl
  | cons c cs ih =>
    simp only [clearCartLines]
    by_cases hc : (c.tenantId == tenantId && c.userId == some userId) = true
    · rw [if_pos hc]
      simp
    · rw [if_neg hc]
      simp [ih]

/-- When a cart with the key exists, `clearCartLines` leaves a cart with
that key and no lines. -/
lemma clearCartLines_clears (cs : List Cart) (tenantId userId : Nat) (c0 : Cart)
    (hmem : c0 ∈ cs) (ht : c0.tenantId = tenantId) (hu : c0.userId = some userId) :
    ∃ c1, c1 ∈ clearCartLines cs tenantId userId ∧ c1.tenantId = tenantId ∧
      c1.userId = some userId ∧ c1.lines = [] := by
  induction cs with
  | nil => cases hmem
  | cons c cs ih =>
    simp only [clearCartLines]
    by_cases hc : (c.tenantId == tenantId && c.userId == some userId) = true
    · rw [if_pos hc]
      rw [Bool.and_eq_true] at hc
      exact ⟨{ c with lines := [] }, List.mem_cons_self _ _, eq_of_beq hc.1,
        eq_of_beq hc.2, rfl⟩
    · rw [if_neg hc]
      rcases List.mem_cons.mp hmem with h1 | h2
      · exfalso
        apply hc
        rw [Bool.and_eq_true]
        have ht2 : c.tenantId = tenantId := by rw [← h1]; exact ht
        have hu2 : c.userId = some userId := by rw [← h1]; exact hu
        exact ⟨beq_iff_eq.mpr ht2, beq_iff_eq.mpr hu2⟩
      · obtain ⟨c1, hc1, hc2, hc3, hc4⟩ := ih h2
        exact ⟨c1, List.mem_cons_of_mem _ hc1, hc2, hc3, hc4⟩

/-- C10: when finalize commits (non-idempotently), the cart collection
keeps its length — the matching cart is cleared, not deleted — and
pointwise every cart is either untouched or is a cart keyed by the order's
tenant and customer whose line list (whatever it held at finalize time,
including lines added after checkout) is emptied with every other field
kept; when such a cart exists, the resulting store holds a cart for that
key with no lines. -/
theorem finalize_clears_cart (db : DB) (reference : String)
    (metadata : List (String × String)) (now : Nat) (db2 : DB) (r : FinalizeOk)
    (h : finalizeSuccessfulPayment db reference metadata now = .ok (db2, r))
    (hni : r.idempotent = false) :
    db2.carts.length = db.carts.length ∧
    cartsClearSpec db.carts db2.carts r.order.tenantId r.order.userId ∧
    (∀ c0 ∈ db.carts, c0.tenantId = r.order.tenantId → c0.userId = some r.order.userId →
      ∃ c1, c1 ∈ db2.carts ∧ c1.tenantId = r.order.tenantId ∧
        c1.userId = some r.order.userId ∧ c1.lines = []) := by
  cases hp : findPayment db reference with
  | none => simp [finalizeSuccessfulPayment, hp] at h
  | some p =>
    cases ho : findOrderById db p.orderId with
    | none => simp [finalizeSuccessfulPayment, hp, ho] at h
    | some o =>
      by_cases hs : p.status = .success
      · simp only [finalizeSuccessfulPayment, hp, ho, if_pos hs, Except.ok.injEq,
          Prod.mk.injEq] at h
        obtain ⟨-, hr⟩ := h
        rw [← hr] at hni
        simp at hni
      · simp only [finalizeSuccessfulPayment, hp, ho, if_neg hs] at h
        cases hd : applyLineDecrements o.tenantId db.products o.lines with
        | error e => rw [hd] at h; simp at h
        | ok products2 =>
          rw [hd] at h
          simp only [Except.ok.injEq, Prod.mk.injEq] at h
          obtain ⟨hdb, hr⟩ := h
          subst hdb
          subst hr
          exact ⟨clearCartLines_length db.carts o.tenantId o.userId,
            clearCartLines_spec db.carts o.tenantId o.userId,
            fun c0 hmem ht hu => clearCartLines_clears db.carts o.tenantId o.userId c0 hmem ht hu⟩

/-- C10 witness: the successfully finalized demo store keeps its single
cart, now emptied, for the demo order's tenant and customer. -/
theorem finalize_clears_cart_witness :
    demoFinalDB.carts.length = demoDB.carts.length ∧
    ∃ c1, c1 ∈ demoFinalDB.carts ∧ c1.tenantId = demoFinalResult.order.tenantId ∧
      c1.userId = some demoFinalResult.order.userId ∧ c1.lines = [] := by
  have h := finalize_clears_cart demoDB "PAY-1-AAA" [("source", "webhook")] 99
    demoFinalDB demoFinalResult rfl rfl
  exact ⟨h.1, h.2.2 demoCart (by decide) (by decide) (by decide)⟩

end Shop
